import Mathlib

/-!
Shallow embedding of the slip-theme-magic image pipeline.

The repository has two source files: a React page (two variants of
`Index.tsx` in `src/unnamed/part_000`: a static bank-template renderer
at a fixed 800x1200 size, and a fragment-driven renderer sized to the
source image) and the Supabase edge function
`src/supabase/functions/process-slip/index.ts`.

Canvas 2D drawing is modelled as the list of draw commands issued to
the context, with the mutable context state (fillStyle, font,
textAlign, lineWidth) resolved into each command at the point it is
issued.  JavaScript numbers are modelled as rationals; outcomes of
external library calls (`JSON.parse`, `new Date().toLocaleDateString`)
are supplied as explicit inputs.
-/

namespace SlipTheme

/-- One recognized text element as consumed by the front end
(`element.text`, `element.x`, `element.y`, `element.fontSize`);
the `fontSize` field may be absent (`none`). -/
structure Fragment where
  text : String
  x : ℚ
  y : ℚ
  fontSize : Option String
deriving DecidableEq

/-- A draw command issued to the canvas 2D context, with the context
state in effect at issue time (fill color, font, text alignment)
recorded in the command. -/
inductive DrawOp where
  | gradientRect (gx0 gy0 gx1 gy1 : ℚ) (stops : List (ℚ × String)) (x y w h : ℚ)
  | fillRect (x y w h : ℚ) (color : String)
  | strokeLine (x0 y0 x1 y1 : ℚ) (color : String) (lineWidth : ℚ)
  | arc (cx cy r : ℚ) (color : String)
  | fillText (text : String) (x y : ℚ) (font : String) (color : String) (align : String)
deriving DecidableEq

/-- The canvas: its pixel dimensions and the draw commands applied to it. -/
structure Canvas where
  width : Nat
  height : Nat
  ops : List DrawOp
deriving DecidableEq

/-- The ambient impure context of the page at render time: the string
that `new Date().toLocaleDateString("th-TH", ...)` produces at the
moment `processImage` runs (a value of the system clock). -/
structure Env where
  dateString : String
deriving DecidableEq

/-- `const fontSize = element.fontSize === "large" ? 24 :
element.fontSize === "small" ? 12 : 16;` (part_000 line 509). -/
def resolveFontSize (fontSize : Option String) : Nat :=
  if fontSize = some "large" then 24
  else if fontSize = some "small" then 12
  else 16

/-- `const x = (element.x / 100) * canvas.width;` and likewise for
`y` against `canvas.height` (part_000 lines 511-512). -/
def resolvePx (coord : ℚ) (dim : Nat) : ℚ :=
  coord / 100 * (dim : ℚ)

/-- The draw command for one fragment:
`ctx.font = fontSize + "px Arial, sans-serif"; ctx.fillText(element.text, x, y);`
with `ctx.fillStyle = "white"` and `ctx.textAlign = "center"` in
effect (part_000 lines 504-513). -/
def fragmentOp (w h : Nat) (e : Fragment) : DrawOp :=
  .fillText e.text (resolvePx e.x w) (resolvePx e.y h)
    (toString (resolveFontSize e.fontSize) ++ "px Arial, sans-serif") "white" "center"

/-- `for (let i = 0; i < canvas.height; i += 20) ctx.fillRect(0, i, canvas.width, 1);`
with `ctx.fillStyle = "rgba(0, 0, 0, 0.05)"`; the loop body runs once
for each multiple of 20 below `h`, i.e. ceil(h / 20) times. -/
def patternOps (w h : Nat) : List DrawOp :=
  (List.range ((h + 19) / 20)).map fun k =>
    .fillRect 0 (20 * (k : ℚ)) (w : ℚ) 1 "rgba(0, 0, 0, 0.05)"

/-- The themed background of the fragment-driven variant (part_000
lines 491-501): a linear gradient from (0,0) to (w,h) — the diagonal —
with stops (0,"#7c3aed") and (1,"#c026d3"), filled over the whole
canvas, followed by the pattern overlay. -/
def background (w h : Nat) : Canvas :=
  { width := w, height := h,
    ops := .gradientRect 0 0 (w : ℚ) (h : ℚ) [(0, "#7c3aed"), (1, "#c026d3")]
             0 0 (w : ℚ) (h : ℚ) :: patternOps w h }

/-- The compositor: draws each fragment, in list order, on top of the
already-drawn background (the `forEach` of part_000 lines 508-514). -/
def composite (bg : Canvas) (els : List Fragment) : Canvas :=
  { bg with ops := bg.ops ++ els.map (fragmentOp bg.width bg.height) }

/-- The fragment-driven render (second `Index.tsx` variant, part_000
lines 486-515): the canvas takes the source image's dimensions, the
themed background is drawn, then
`if (data.textElements && Array.isArray(data.textElements))` the
fragments are drawn; a missing or non-array `textElements` (`none`)
draws no text.  `_env` is the ambient impure context; this variant's
drawing code never reads it (it contains no `Date` or randomness call). -/
def renderProcessed (w h : Nat) (textElements : Option (List Fragment)) (_env : Env) : Canvas :=
  composite (background w h) (textElements.getD [])

/-- `canvas.toDataURL("image/png")`: the encoded export of the whole
canvas in the single supported format. -/
structure Encoded where
  mime : String
  canvas : Canvas
deriving DecidableEq

/-- Encoding flattens the full canvas, tagged `"image/png"`. -/
def encodePNG (c : Canvas) : Encoded :=
  { mime := "image/png", canvas := c }

/-- The static bank-template render (first `Index.tsx` variant,
part_000 lines 76-205): fixed 800x1200 canvas, gradient with stops
(0,"#a8305a") and (1,"#7b3897"), pattern overlay, then the fixed
decorative labels.  At lines 110-119 it draws the current date
(`new Date().toLocaleDateString("th-TH", ...)`), taken here from the
ambient environment `env`. -/
def renderStaticTemplate (env : Env) : Canvas :=
  { width := 800, height := 1200,
    ops :=
      .gradientRect 0 0 800 1200 [(0, "#a8305a"), (1, "#7b3897")] 0 0 800 1200 ::
      patternOps 800 1200 ++
      [ .arc 400 80 40 "#c13832",
        .fillText "🌿" 400 95 "bold 40px Arial" "#4caf50" "center",
        .fillText "KASIKORN BANK" 400 160 "bold 28px Arial" "#f4d03f" "center",
        .fillText env.dateString 400 200 "18px Arial" "white" "center",
        .strokeLine 50 230 750 230 "rgba(255, 255, 255, 0.3)" 1,
        .fillText "จาก (From)" 60 280 "20px Arial" "white" "left",
        .fillText "ผู้ส่ง (Sender)" 60 315 "bold 24px Arial" "white" "left",
        .fillText "→" 400 315 "30px Arial" "white" "center",
        .fillText "ถึง (To)" 740 280 "20px Arial" "white" "right",
        .fillText "ผู้รับ (Receiver)" 740 315 "bold 24px Arial" "white" "right",
        .strokeLine 50 350 750 350 "rgba(255, 255, 255, 0.3)" 1,
        .fillText "เลขที่อ้างอิง (Reference)" 60 400 "20px Arial" "white" "left",
        .fillText "XXXXXXXXXX" 60 430 "bold 22px Arial" "white" "left",
        .fillText "จำนวนเงิน (Amount)" 60 480 "20px Arial" "white" "left",
        .fillText "฿ X,XXX.XX" 60 520 "bold 36px Arial" "#f4d03f" "left",
        .fillText "ค่าธรรมเนียม (Fee)" 60 580 "20px Arial" "white" "left",
        .fillText "฿ 0.00" 60 610 "bold 22px Arial" "white" "left",
        .strokeLine 50 660 750 660 "rgba(255, 255, 255, 0.3)" 1,
        .fillRect 300 710 200 200 "white",
        .fillText "QR CODE" 400 820 "20px Arial" "#a8305a" "center",
        .fillText "สแกนตรวจสอบสลิป" 400 960 "16px Arial" "rgba(255, 255, 255, 0.7)" "center" ] }

/-- The text strings drawn on a canvas, in draw order (a projection of
the draw-command list used to compare rendered canvases). -/
def Canvas.textStrings (c : Canvas) : List String :=
  c.ops.filterMap fun op =>
    match op with
    | .fillText t _ _ _ _ _ => some t
    | _ => none

/-- A typed error response of the edge function: HTTP status and the
`error` message of its JSON body. -/
structure EdgeErr where
  status : Nat
  message : String
deriving DecidableEq

/-- Lines 76-87 of the edge function: the recognizer's text is parsed
as JSON (after stripping a markdown code block); on parse failure the
catch substitutes a single synthetic element carrying the raw text at
the canvas center with medium size.  The outcome of the `JSON.parse`
library call is supplied as `parseResult` (`none` = the parse threw). -/
def extractFragments (raw : String) (parseResult : Option (List Fragment)) : List Fragment :=
  match parseResult with
  | some els => els
  | none => [{ text := raw, x := 50, y := 50, fontSize := some "medium" }]

/-- The `process-slip` edge function (index.ts lines 13-100): a missing
`LOVABLE_API_KEY` throws (caught: status 500); a non-2xx gateway
status maps to 429 / 402 / a generic 500; a missing or empty (falsy)
`data.choices[0].message.content` throws (caught: status 500);
otherwise the parsed (or fallback) elements are returned. -/
def serveProcessSlip (apiKey : Option String) (status : Nat)
    (content : Option String) (parseResult : Option (List Fragment)) :
    Except EdgeErr (List Fragment) :=
  match apiKey with
  | none => .error { status := 500, message := "LOVABLE_API_KEY is not configured" }
  | some _ =>
    if 200 ≤ status ∧ status ≤ 299 then
      match content with
      | none => .error { status := 500, message := "No text extracted from image" }
      | some raw =>
        if raw = "" then .error { status := 500, message := "No text extracted from image" }
        else .ok (extractFragments raw parseResult)
    else if status = 429 then
      .error { status := 429, message := "Rate limit exceeded. Please try again later." }
    else if status = 402 then
      .error { status := 402, message := "Payment required. Please add credits to your workspace." }
    else .error { status := 500, message := "Failed to process image" }

/-- The front end's `processImage` (second variant, part_000 lines
468-534): if the edge invocation reports an error the catch block runs
and no processed image is set; otherwise the whole canvas is rendered
and only then exported via `canvas.toDataURL("image/png")`.  The
result pairs the stored processed image (if any) with the reported
error message (if any). -/
def processImage (edgeResult : Except EdgeErr (List Fragment)) (imgW imgH : Nat)
    (env : Env) : Option Encoded × Option String :=
  match edgeResult with
  | .error e => (none, some e.message)
  | .ok els => (some (encodePNG (renderProcessed imgW imgH (some els) env)), none)

/-- The end-to-end pipeline: the edge function, then the front-end
render and export. -/
def fullProcess (apiKey : Option String) (status : Nat) (content : Option String)
    (parseResult : Option (List Fragment)) (imgW imgH : Nat) (env : Env) :
    Option Encoded × Option String :=
  processImage (serveProcessSlip apiKey status content parseResult) imgW imgH env

/-- C2: the compositor resolves the size classes to exactly 12, 16 and
24 pixels, and the resolved sizes are strictly ordered
small < medium < large. -/
theorem c2_fontSize_mapped_and_ordered :
    resolveFontSize (some "small") = 12 ∧
    resolveFontSize (some "medium") = 16 ∧
    resolveFontSize (some "large") = 24 ∧
    resolveFontSize (some "small") < resolveFontSize (some "medium") ∧
    resolveFontSize (some "medium") < resolveFontSize (some "large") := by
  decide

/-- C3: compositing with an empty fragment list returns the background
canvas unchanged (pixel-identical: the very same draw commands), and is
an ordinary non-error result. -/
theorem c3_empty_fragment_untouched : ∀ bg : Canvas, composite bg [] = bg := by
  intro bg
  cases bg
  simp [composite]

/-- C10: any `fontSize` value other than `"large"` or `"small"` —
including a missing field and an unrecognized string — resolves to the
medium value 16. -/
theorem c10_default_medium : ∀ fontSize : Option String,
    fontSize ≠ some "large" → fontSize ≠ some "small" → resolveFontSize fontSize = 16 := by
  intro fs h1 h2
  simp [resolveFontSize, h1, h2]

/-- C10 witness: an unrecognized size string resolves to 16. -/
theorem c10_default_medium_witness : resolveFontSize (some "huge") = 16 :=
  c10_default_medium (some "huge") (by decide) (by decide)

/-- C1 counterexample: the compositor does not round the resolved
position.  For a fragment with x=1 on a 150-pixel-wide canvas the draw
command is issued at the fractional abscissa 3/2, whereas
round(1/100 * 150) = 2; so the resolved position is not
round(x/100 * width). -/
theorem c1_no_rounding_counterexample :
    fragmentOp 150 150 { text := "t", x := 1, y := 1, fontSize := none } =
      .fillText "t" (3 / 2) (3 / 2) "16px Arial, sans-serif" "white" "center" ∧
    resolvePx 1 150 ≠ ((round (resolvePx 1 150) : ℤ) : ℚ) := by
  constructor
  · simp only [fragmentOp, resolveFontSize, resolvePx, DrawOp.fillText.injEq]
    norm_num
    rfl
  · have h : resolvePx 1 150 = 3 / 2 := by norm_num [resolvePx]
    rw [h]
    have h2 : round ((3 : ℚ) / 2) = 2 := by norm_num [round_eq]
    rw [h2]
    norm_num

/-- C1 (amended): the resolved position is exactly x/100 * width and
y/100 * height, with no rounding applied; in particular coordinate 0
resolves to pixel 0 and coordinate 100 resolves to the full dimension. -/
theorem c1_resolved_position : ∀ (w h : Nat) (x : ℚ),
    resolvePx x w = x * w / 100 ∧
    resolvePx 0 w = 0 ∧ resolvePx 100 w = (w : ℚ) ∧
    resolvePx 0 h = 0 ∧ resolvePx 100 h = (h : ℚ) := by
  intro w h x
  refine ⟨?_, ?_, ?_, ?_, ?_⟩
  · simp [resolvePx]
    ring
  · simp [resolvePx]
  · norm_num [resolvePx]
  · simp [resolvePx]
  · norm_num [resolvePx]

/-- C4 counterexample: the static-template renderer reads the system
clock — it draws the current date string onto the background (part_000
lines 110-119) — so two runs whose clock formats to different date
strings produce different buffers. -/
theorem c4_clock_dependence :
    renderStaticTemplate { dateString := "4 ตุลาคม 2568 14:30" } ≠
      renderStaticTemplate { dateString := "5 ตุลาคม 2568 14:30" } := by
  have h : Canvas.textStrings (renderStaticTemplate { dateString := "4 ตุลาคม 2568 14:30" }) ≠
      Canvas.textStrings (renderStaticTemplate { dateString := "5 ตุลาคม 2568 14:30" }) := by
    decide
  exact fun he => h (congrArg Canvas.textStrings he)

/-- C4 (amended): the fragment-driven renderer is a pure function of
the canvas dimensions and the fragment list: it reads nothing from the
ambient environment (no randomness, no clock), so two runs in any two
environments produce identical buffers.  The static-template variant
does not have this property (see the counterexample). -/
theorem c4_dynamic_render_pure :
    ∀ (w h : Nat) (t : Option (List Fragment)) (e1 e2 : Env),
      renderProcessed w h t e1 = renderProcessed w h t e2 := by
  intro w h t e1 e2
  rfl

/-- C6: the pipeline's delivered output is all-or-nothing: whenever the
edge stage fails, the front end stores no image at all and surfaces the
typed error message; when it succeeds, the stored image is the complete
encoded render of the full canvas — never a partially drawn one. -/
theorem c6_atomic_output : ∀ (ak : Option String) (st : Nat) (ct : Option String)
    (pr : Option (List Fragment)) (w h : Nat) (env : Env),
    (∀ e, serveProcessSlip ak st ct pr = .error e →
      fullProcess ak st ct pr w h env = (none, some e.message)) ∧
    (∀ els, serveProcessSlip ak st ct pr = .ok els →
      fullProcess ak st ct pr w h env =
        (some (encodePNG (renderProcessed w h (some els) env)), none)) := by
  intro ak st ct pr w h env
  constructor
  · intro e he
    simp [fullProcess, processImage, he]
  · intro els he
    simp [fullProcess, processImage, he]

/-- C6 witness: with the API key missing, the pipeline delivers no
image bytes and only the typed error message. -/
theorem c6_atomic_output_witness :
    fullProcess none 200 (some "TOTAL 100.00") none 800 1200 { dateString := "d" } =
      (none, some "LOVABLE_API_KEY is not configured") :=
  (c6_atomic_output none 200 (some "TOTAL 100.00") none 800 1200 { dateString := "d" }).1
    { status := 500, message := "LOVABLE_API_KEY is not configured" } rfl

/-- C7: the compositor draws every fragment of the list, with no bounds
check on the resolved position: a fragment keeps its draw command in
the output whatever its coordinates (clipping is left to the canvas),
and compositing is a total function of the fragment list. -/
theorem c7_out_of_bounds_still_drawn :
    ∀ (w h : Nat) (els : List Fragment) (e : Fragment) (env : Env),
      e ∈ els → fragmentOp w h e ∈ (renderProcessed w h (some els) env).ops := by
  intro w h els e env he
  show fragmentOp w h e ∈ (background w h).ops ++ els.map (fragmentOp w h)
  exact List.mem_append_right _ (List.mem_map_of_mem _ he)

/-- C7 witness: a fragment at x=150, y=-20 — outside [0,100] — is still
drawn on an 800x1200 canvas. -/
theorem c7_out_of_bounds_witness :
    fragmentOp 800 1200 { text := "noisy", x := 150, y := -20, fontSize := none } ∈
      (renderProcessed 800 1200
        (some [{ text := "noisy", x := 150, y := -20, fontSize := none }])
        { dateString := "d" }).ops :=
  c7_out_of_bounds_still_drawn 800 1200
    [{ text := "noisy", x := 150, y := -20, fontSize := none }]
    { text := "noisy", x := 150, y := -20, fontSize := none }
    { dateString := "d" } (List.mem_singleton.mpr rfl)

/-- C8: whenever `JSON.parse` of the recognizer's response fails, the
edge function substitutes exactly one synthetic fragment carrying the
whole raw text, placed at the canvas center (x=50, y=50) with medium
size, instead of propagating a parse error: the compositor always
receives a fragment list. -/
theorem c8_parse_fallback : ∀ raw : String,
    extractFragments raw none =
      [{ text := raw, x := 50, y := 50, fontSize := some "medium" }] ∧
    (extractFragments raw none).length = 1 := by
  intro raw
  exact ⟨rfl, rfl⟩

/-- C9: on an 800x1200 canvas with the hardcoded stops (0,"#7c3aed")
and (1,"#c026d3") and the single fragment TOTAL at (50,50) with the
large size class, the render is an 800x1200 canvas whose first command
is the diagonal purple-to-magenta gradient fill and which draws the
string "TOTAL" center-aligned at pixel (400,600) in the 24px large
font; the export is tagged "image/png" and carries that full canvas. -/
theorem c9_scenario_total : ∀ env : Env,
    (renderProcessed 800 1200
        (some [{ text := "TOTAL", x := 50, y := 50, fontSize := some "large" }]) env).width
      = 800 ∧
    (renderProcessed 800 1200
        (some [{ text := "TOTAL", x := 50, y := 50, fontSize := some "large" }]) env).height
      = 1200 ∧
    (renderProcessed 800 1200
        (some [{ text := "TOTAL", x := 50, y := 50, fontSize := some "large" }]) env).ops.head?
      = some (.gradientRect 0 0 800 1200 [(0, "#7c3aed"), (1, "#c026d3")] 0 0 800 1200) ∧
    DrawOp.fillText "TOTAL" 400 600 "24px Arial, sans-serif" "white" "center" ∈
      (renderProcessed 800 1200
        (some [{ text := "TOTAL", x := 50, y := 50, fontSize := some "large" }]) env).ops ∧
    encodePNG (renderProcessed 800 1200
        (some [{ text := "TOTAL", x := 50, y := 50, fontSize := some "large" }]) env)
      = { mime := "image/png",
          canvas := renderProcessed 800 1200
            (some [{ text := "TOTAL", x := 50, y := 50, fontSize := some "large" }]) env } := by
  intro env
  refine ⟨rfl, rfl, rfl, ?_, rfl⟩
  have hop : DrawOp.fillText "TOTAL" 400 600 "24px Arial, sans-serif" "white" "center"
      = fragmentOp 800 1200 { text := "TOTAL", x := 50, y := 50, fontSize := some "large" } := by
    simp only [fragmentOp, resolveFontSize, resolvePx, DrawOp.fillText.injEq]
    norm_num
    rfl
  rw [hop]
  show fragmentOp 800 1200 { text := "TOTAL", x := 50, y := 50, fontSize := some "large" } ∈
    (background 800 1200).ops ++
      List.map (fragmentOp 800 1200)
        [{ text := "TOTAL", x := 50, y := 50, fontSize := some "large" }]
  exact List.mem_append_right _ (List.mem_map_of_mem _ (List.mem_singleton.mpr rfl))

end SlipTheme
